import Mathlib

/-!
Verification of the auth-service token lifecycle.

This file gives a shallow embedding of the core authentication logic of the
repository (the `AuthService` methods in `app/services/auth_service.py`, the
request-validation dependencies in `app/dependencies.py`, the
`forgot-password` endpoint in `app/api/v1/auth.py`, and the configuration
defaults in `app/config.py`), and proves or refutes the frozen claims about
the token lifecycle: rotation, blacklisting, password reset, and the
authorization gates.

Modelling conventions:
- time is a `Nat` of seconds since the epoch (`datetime.utcnow().timestamp()`);
- the relational ledger (`refresh_tokens` table) is a `List RefreshTokenRecord`;
- the Redis store is an association list mapping a key to its value and
  absolute expiry second; `set(key, value, expire=ttl)` issued at time `now`
  stores absolute expiry `now + ttl`, and a key is live at `t` iff `t` is
  before its expiry;
- the token codec (`gravity_common.security`, a dependency that is not part
  of this repository's sources) is abstracted: `decode_access_token` becomes
  an explicit function argument `decode : String → Option Payload` (`none`
  models any decode exception: bad signature, expired, malformed), and the
  freshly minted token strings are explicit oracle arguments;
- `gravity_common.utils.generate_hash` becomes an explicit argument
  `hash : String → String`;
- raising a typed exception becomes returning `Except.error`; a `try/except`
  that collapses everything to `UnauthorizedException` becomes a wrapper
  mapping every error to `ApiError.unauthorized`.
-/

namespace AuthVerif

/-- Mirror of the `User` model (`app/models/user.py`): the columns the auth
core reads. -/
structure User where
  id : Nat
  email : String
  hashed_password : String
  is_active : Bool
  is_superuser : Bool
deriving Repr, DecidableEq

/-- Mirror of the `RefreshToken` model (`app/models/user.py`): the refresh
token ledger row. `expires_at` is an absolute second. -/
structure RefreshTokenRecord where
  id : Nat
  user_id : Nat
  token_hash : String
  expires_at : Nat
  is_revoked : Bool
deriving Repr, DecidableEq

/-- Decoded token claims, as read by the service code via `payload.get(...)`:
absent claims are `none`. `exp` is an absolute second (an `Int`, as the
service compares it with a timestamp). -/
structure Payload where
  sub : Option String
  email : Option String
  exp : Option Int
  purpose : Option String
deriving Repr, DecidableEq

/-- Mirror of the `Token` response schema (`app/schemas/auth.py`). -/
structure Token where
  access_token : String
  refresh_token : String
  token_type : String
  expires_in : Nat
deriving Repr, DecidableEq

/-- The typed exceptions of `gravity_common.exceptions` that the auth core
raises, plus the HTTP statuses used directly by `app/dependencies.py`. -/
inductive ApiError where
  | unauthorized
  | notFound
  | conflict
  | badRequest
deriving Repr, DecidableEq

/-- The configuration values the auth service reads from the global
`settings` object: `settings.ACCESS_TOKEN_EXPIRE_MINUTES` and
`settings.REFRESH_TOKEN_EXPIRE_DAYS`. `app/config.py` declares these
values as `JWT_ACCESS_TOKEN_EXPIRE_MINUTES` (default 30) and
`JWT_REFRESH_TOKEN_EXPIRE_DAYS` (default 7); the service reads them
without the `JWT_` name part — that attribute-name mismatch is modelled
separately by `settingsDeclaredFields` below, and this structure models
the resolved values the code intends to read. -/
structure Settings where
  ACCESS_TOKEN_EXPIRE_MINUTES : Nat
  REFRESH_TOKEN_EXPIRE_DAYS : Nat
deriving Repr, DecidableEq

/-- The defaults declared in `app/config.py`: 30 minutes, 7 days. -/
def defaultSettings : Settings :=
  { ACCESS_TOKEN_EXPIRE_MINUTES := 30, REFRESH_TOKEN_EXPIRE_DAYS := 7 }

/-- The field names the `Settings` class in `app/config.py` declares (the
global instance is `settings = Settings()`; `model_config` has
`case_sensitive=True` and `extra="ignore"`, so reading any other attribute
name raises `AttributeError`). -/
def settingsDeclaredFields : List String :=
  ["APP_NAME", "APP_VERSION", "DEBUG", "LOG_LEVEL", "ENVIRONMENT", "PORT",
   "DATABASE_URL", "DB_HOST", "DB_PORT", "DB_NAME", "DB_USER", "DB_PASSWORD",
   "DB_POOL_SIZE", "DB_MAX_OVERFLOW", "DB_POOL_TIMEOUT", "DB_ECHO",
   "REDIS_URL", "REDIS_HOST", "REDIS_PORT", "REDIS_DB", "REDIS_PASSWORD",
   "REDIS_MAX_CONNECTIONS", "SECRET_KEY", "JWT_SECRET_KEY", "JWT_ALGORITHM",
   "JWT_ACCESS_TOKEN_EXPIRE_MINUTES", "JWT_REFRESH_TOKEN_EXPIRE_DAYS",
   "CORS_ORIGINS", "CORS_ALLOW_CREDENTIALS", "CORS_ALLOW_METHODS",
   "CORS_ALLOW_HEADERS", "RATE_LIMIT_ENABLED", "RATE_LIMIT_PER_MINUTE",
   "RATE_LIMIT_PER_HOUR", "CONSUL_HOST", "CONSUL_PORT",
   "SERVICE_DISCOVERY_ENABLED", "API_GATEWAY_URL", "AUTH_SERVICE_URL",
   "USER_SERVICE_URL", "NOTIFICATION_SERVICE_URL", "METRICS_ENABLED",
   "METRICS_PORT", "TRACING_ENABLED", "JAEGER_HOST", "JAEGER_PORT",
   "TEST_DATABASE_URL", "TEST_REDIS_URL", "API_TITLE", "API_DESCRIPTION",
   "API_VERSION", "API_V1_PREFIX"]

/-- Whether an attribute lookup `settings.<attr>` on the global `Settings`
instance resolves (pydantic raises `AttributeError` otherwise). -/
def settingsHasAttr (attr : String) : Bool :=
  settingsDeclaredFields.contains attr

/-- The Redis store (`app/core/redis_client.py`): key ↦ (value, absolute
expiry second). -/
abbrev RedisStore := List (String × String × Nat)

/-- Model of `redis.set(key, value, expire=ttl)` at time `now`, with `expireAt = now
+ ttl`: overwrites any existing entry for the key. -/
def redisSet (st : RedisStore) (k v : String) (expireAt : Nat) : RedisStore :=
  (k, v, expireAt) :: st.filter (fun e => !(e.1 == k))

/-- Model of `redis.get(key)` at time `now`: an entry is visible only while `now` is
before its expiry second. -/
def redisGet (st : RedisStore) (k : String) (now : Nat) : Option String :=
  match st.find? (fun e => e.1 == k) with
  | some (_, v, ex) => if now < ex then some v else none
  | none => none

/-- Model of `redis.exists(key)` at time `now`. -/
def redisExists (st : RedisStore) (k : String) (now : Nat) : Bool :=
  (redisGet st k now).isSome

/-- Model of `redis.delete(key)`. -/
def redisDelete (st : RedisStore) (k : String) : RedisStore :=
  st.filter (fun e => !(e.1 == k))

/-- A decimal digit's value, else `none`. -/
def charDigit? (c : Char) : Option Nat :=
  if 47 < c.toNat && c.toNat < 58 then some (c.toNat - 48) else none

/-- Accumulate a decimal value over characters; any non-digit fails. -/
def digitsVal : List Char → Nat → Option Nat
  | [], acc => some acc
  | c :: cs, acc =>
    match charDigit? c with
    | some d => digitsVal cs (acc * 10 + d)
    | none => none

/-- Model of Python's `int(...)` applied to the `sub` claim: the claim is
produced as `str(user.id)`, a decimal numeral, which `int` parses back;
any non-numeral raises `ValueError`, which the surrounding `try` blocks
collapse into the endpoint's failure, modelled by `none`. -/
def pyInt? (s : String) : Option Nat :=
  match s.data with
  | [] => none
  | cs => digitsVal cs 0

/-- The ledger query of `AuthService.refresh_access_token` (line 312): select
the record with the given hash where `is_revoked == False AND expires_at >
now` (`scalar_one_or_none`, i.e. the first such record or none). -/
def findLiveRecord (ledger : List RefreshTokenRecord) (h : String) (now : Nat) :
    Option RefreshTokenRecord :=
  ledger.find? (fun r => r.token_hash == h && !r.is_revoked && decide (now < r.expires_at))

/-- The ORM write `refresh_token_record.is_revoked = True` followed by
`commit()`: sets the flag on the row with the given primary key. -/
def revokeById (ledger : List RefreshTokenRecord) (rid : Nat) :
    List RefreshTokenRecord :=
  ledger.map (fun r => if r.id == rid then { r with is_revoked := true } else r)

/-- Embedding of `AuthService.create_tokens` (auth_service.py lines 212–280): mint an
access and a refresh token (the minted strings are the oracle arguments
`accessStr`/`refreshStr`; the role lookup only feeds the minted access
token's claims and hence is absorbed into `accessStr`), store a fresh
ledger row holding the hash of the refresh token with `is_revoked=False`
and expiry `now + REFRESH_TOKEN_EXPIRE_DAYS` days, and return the pair with
token type `"bearer"` and `expires_in = ACCESS_TOKEN_EXPIRE_MINUTES * 60`
seconds. `freshId` is the primary key the insert allocates. -/
def create_tokens (s : Settings) (hash : String → String) (user : User)
    (ledger : List RefreshTokenRecord) (accessStr refreshStr : String)
    (now freshId : Nat) : Token × List RefreshTokenRecord :=
  ({ access_token := accessStr,
     refresh_token := refreshStr,
     token_type := "bearer",
     expires_in := s.ACCESS_TOKEN_EXPIRE_MINUTES * 60 },
   ledger ++ [{ id := freshId, user_id := user.id, token_hash := hash refreshStr,
                expires_at := now + s.REFRESH_TOKEN_EXPIRE_DAYS * 86400,
                is_revoked := false }])

/-- Body of the `try:` block of `AuthService.refresh_access_token`
(auth_service.py lines 297–343), before the blanket `except` clause.
Steps, in source order: decode the token (`decode` returning `none` models
any decode exception); read `sub` and convert with `int(...)`; look the
hash up in the ledger among unrevoked unexpired rows; load the user and
require it active; set `is_revoked` on the found row and `commit()` (first
transaction); then call `create_tokens`, which inserts the new row and
commits separately (second transaction). `issueOk = false` models
`create_tokens` raising (its own settings lookup or its `commit()`),
after the revocation commit is already durable. The returned ledger is the
committed state. -/
def refresh_access_token_inner (s : Settings) (hash : String → String)
    (decode : String → Option Payload) (users : List User)
    (ledger : List RefreshTokenRecord)
    (refreshStr newAccessStr newRefreshStr : String)
    (now freshId : Nat) (issueOk : Bool) :
    Except ApiError Token × List RefreshTokenRecord :=
  match decode refreshStr with
  | none => (.error .unauthorized, ledger)
  | some payload =>
    match payload.sub with
    | none => (.error .unauthorized, ledger)
    | some subStr =>
      match pyInt? subStr with
      | none => (.error .unauthorized, ledger)
      | some uid =>
        match findLiveRecord ledger (hash refreshStr) now with
        | none => (.error .unauthorized, ledger)
        | some rec =>
          match users.find? (fun u => u.id == uid) with
          | none => (.error .unauthorized, ledger)
          | some user =>
            if !user.is_active then (.error .unauthorized, ledger)
            else
              if issueOk then
                let issued := create_tokens s hash user (revokeById ledger rec.id)
                  newAccessStr newRefreshStr now freshId
                (.ok issued.1, issued.2)
              else
                (.error .unauthorized, revokeById ledger rec.id)

/-- Embedding of `AuthService.refresh_access_token` (auth_service.py lines 282–347): the
`try` body with its blanket `except Exception` clause, which re-raises
every failure as `UnauthorizedException` (line 347). -/
def refresh_access_token (s : Settings) (hash : String → String)
    (decode : String → Option Payload) (users : List User)
    (ledger : List RefreshTokenRecord)
    (refreshStr newAccessStr newRefreshStr : String)
    (now freshId : Nat) (issueOk : Bool) :
    Except ApiError Token × List RefreshTokenRecord :=
  match refresh_access_token_inner s hash decode users ledger refreshStr
      newAccessStr newRefreshStr now freshId issueOk with
  | (.error _, l) => (.error .unauthorized, l)
  | (.ok t, l) => (.ok t, l)

/-- Embedding of `AuthService.logout` (auth_service.py lines 349–386). Everything runs in
a `try:` whose `except` swallows every exception, so logout never raises;
the function only transforms the Redis store. In source order: decode the
access token (failure → no-op); read `exp` (absent, non-integer, or the
falsy integer `0` → return with nothing written); compute `ttl = exp -
int(now)`; only when `ttl > 0`, set `blacklist:<token> = "true"` with
`expire=ttl`, i.e. absolute expiry `now + ttl = exp`. -/
def logout (decode : String → Option Payload) (redis : RedisStore)
    (accessToken : String) (now : Nat) : RedisStore :=
  match decode accessToken with
  | none => redis
  | some payload =>
    match payload.exp with
    | none => redis
    | some e =>
      if e == 0 then redis
      else
        let ttl : Int := e - (now : Int)
        if 0 < ttl then
          redisSet redis ("blacklist:" ++ accessToken) "true" (now + ttl.toNat)
        else redis

/-- Embedding of `AuthService.is_token_blacklisted` (auth_service.py lines 388–398):
`redis.exists("blacklist:<token>")`. -/
def is_token_blacklisted (redis : RedisStore) (accessToken : String)
    (now : Nat) : Bool :=
  redisExists redis ("blacklist:" ++ accessToken) now

/-- Embedding of `AuthService.request_password_reset` (auth_service.py lines 441–489):
look the user up by email; absent → raise `NotFoundException`; otherwise
mint a reset token (`resetTok` is the oracle for the minted string, whose
claims carry `purpose: "password_reset"`) and store it in Redis under
`password_reset:<user id>` with a 3600-second expiry, returning the token. -/
def request_password_reset (users : List User) (redis : RedisStore)
    (email : String) (resetTok : String) (now : Nat) :
    Except ApiError String × RedisStore :=
  match users.find? (fun u => u.email == email) with
  | none => (.error .notFound, redis)
  | some user =>
      (.ok resetTok,
       redisSet redis ("password_reset:" ++ toString user.id) resetTok (now + 3600))

/-- The externally visible outcome of the `forgot-password` endpoint: the
`success` flag of the `ApiResponse`, and the reset token included in the
development payload when one was minted. -/
structure ForgotOutcome where
  success : Bool
  reset_token : Option String
deriving Repr, DecidableEq

/-- The `forgot_password` endpoint (api/v1/auth.py lines 394–438): calls
`AuthService.request_password_reset`; on success returns `success=True`
with the token in the data; on `NotFoundException` returns `success=True`
with no data ("Return success even if user not found"). -/
def forgot_password (users : List User) (redis : RedisStore)
    (email : String) (resetTok : String) (now : Nat) :
    ForgotOutcome × RedisStore :=
  match request_password_reset users redis email resetTok now with
  | (.ok tok, r) => ({ success := true, reset_token := some tok }, r)
  | (.error _, r) => ({ success := true, reset_token := none }, r)

/-- Overwrite the stored password hash of the user with the given id
(`user.hashed_password = get_password_hash(...)` + `commit()`). -/
def setUserPassword (users : List User) (uid : Nat) (newHash : String) :
    List User :=
  users.map (fun u => if u.id == uid then { u with hashed_password := newHash } else u)

/-- Body of the `try:` block of `AuthService.reset_password`
(auth_service.py lines 501–543). Steps, in source order: decode the reset
token (`decodeR` returning `none` models any decode exception); require a
`sub` claim convertible by `int(...)`; require `purpose ==
"password_reset"`; fetch `password_reset:<uid>` from Redis and require it
to equal the supplied token exactly; load the user (absent → raise
`NotFoundException`); overwrite the password hash with `newHash` (the
oracle for `get_password_hash(new_password)`), delete the Redis ticket,
commit. -/
def reset_password_inner (decodeR : String → Option Payload)
    (users : List User) (redis : RedisStore)
    (token newHash : String) (now : Nat) :
    Except ApiError Unit × List User × RedisStore :=
  match decodeR token with
  | none => (.error .unauthorized, users, redis)
  | some payload =>
    match payload.sub with
    | none => (.error .unauthorized, users, redis)
    | some subStr =>
      match pyInt? subStr with
      | none => (.error .unauthorized, users, redis)
      | some uid =>
        if !(payload.purpose == some ("password_reset")) then
          (.error .unauthorized, users, redis)
        else
          match redisGet redis ("password_reset:" ++ toString uid) now with
          | none => (.error .unauthorized, users, redis)
          | some stored =>
            if !(stored == token) then (.error .unauthorized, users, redis)
            else
              match users.find? (fun u => u.id == uid) with
              | none => (.error .notFound, users, redis)
              | some _ =>
                (.ok (), setUserPassword users uid newHash,
                 redisDelete redis ("password_reset:" ++ toString uid))

/-- Embedding of `AuthService.reset_password` (auth_service.py lines 491–547): the `try`
body with its blanket `except Exception`, which re-raises every failure —
including the internal `NotFoundException` — as `UnauthorizedException`
(line 547). -/
def reset_password (decodeR : String → Option Payload)
    (users : List User) (redis : RedisStore)
    (token newHash : String) (now : Nat) :
    Except ApiError Unit × List User × RedisStore :=
  match reset_password_inner decodeR users redis token newHash now with
  | (.error _, us, r) => (.error .unauthorized, us, r)
  | (.ok (), us, r) => (.ok (), us, r)

/-- Embedding of `get_current_user` (dependencies.py lines 80–136). Everything runs in a
`try:` whose `except` re-raises the 401 `credentials_exception`, so every
failure is a 401. In source order: first check
`redis.exists("blacklist:<token>")` and reject if present; only then
decode; then require a `sub` claim convertible by `int(...)`; then load
the user and reject if absent. The error value is the HTTP status code. -/
def get_current_user (redis : RedisStore) (decode : String → Option Payload)
    (users : List User) (token : String) (now : Nat) : Except Nat User :=
  if redisExists redis ("blacklist:" ++ token) now then .error 401
  else
    match decode token with
    | none => .error 401
    | some payload =>
      match payload.sub with
      | none => .error 401
      | some subStr =>
        match pyInt? subStr with
        | none => .error 401
        | some uid =>
          match users.find? (fun u => u.id == uid) with
          | none => .error 401
          | some user => .ok user

/-- Embedding of `get_current_active_user` (dependencies.py lines 139–161): rejects an
inactive account with HTTP 400 (`status.HTTP_400_BAD_REQUEST`, detail
Inactive user). -/
def get_current_active_user (user : User) : Except Nat User :=
  if !user.is_active then .error 400 else .ok user

/-- Embedding of `get_current_superuser` (dependencies.py lines 164–186): runs on top of
`get_current_active_user` and rejects a non-superuser with HTTP 403
(`status.HTTP_403_FORBIDDEN`, detail Not enough permissions). -/
def get_current_superuser (user : User) : Except Nat User :=
  match get_current_active_user user with
  | .error e => .error e
  | .ok u => if !u.is_superuser then .error 403 else .ok u

/-! ### Interleaving model of two concurrent refresh requests

`refresh_access_token` touches the shared ledger in three atomic database
steps, in this source order (the user lookup between the first two is a
pure read of another table and cannot affect the ledger):

1. the `SELECT` of the live record for the token's hash (line 312);
2. the unconditional ORM write `refresh_token_record.is_revoked = True` on
   the row the `SELECT` returned, made durable by `commit()` (lines
   336–337) — there is no `WHERE is_revoked = false` condition re-checked
   at write time;
3. the insert of the new ledger row inside `create_tokens`, made durable
   by its own `commit()` (lines 270–271).

Requests are handled concurrently (request-parallel, no global lock), so
the steps of two refresh calls on the same token may interleave in any
order that preserves each call's own program order. -/

/-- The per-request progress of one refresh call through its three ledger
steps: program counter, the row id its `SELECT` snapshot returned, and the
outcome flags. -/
structure RefreshAttempt where
  pc : Nat := 0
  found : Option Nat := none
  failed : Bool := false
  succeeded : Bool := false
deriving Repr, DecidableEq

/-- The identity of one refresh call in the race: the hash both calls look
up, and the primary key, hash and expiry of the row its `create_tokens`
would insert. -/
structure AttemptConfig where
  tokenHash : String
  userId : Nat
  newId : Nat
  newHash : String
  newExpiresAt : Nat
deriving Repr, DecidableEq

/-- Execute the next atomic ledger step of one refresh call, following the
source: `SELECT` (fail the call if no live row), then the unconditional
revoke-and-commit of the snapshotted row, then the insert-and-commit of the
fresh row, after which the call has succeeded. -/
def raceStep (cfg : AttemptConfig) (now : Nat)
    (ledger : List RefreshTokenRecord) (att : RefreshAttempt) :
    List RefreshTokenRecord × RefreshAttempt :=
  if att.failed || att.succeeded then (ledger, att)
  else
    match att.pc with
    | 0 =>
      match findLiveRecord ledger cfg.tokenHash now with
      | some r => (ledger, { att with pc := 1, found := some r.id })
      | none => (ledger, { att with failed := true })
    | 1 =>
      match att.found with
      | some rid => (revokeById ledger rid, { att with pc := 2 })
      | none => (ledger, { att with failed := true })
    | _ =>
      (ledger ++ [{ id := cfg.newId, user_id := cfg.userId,
                    token_hash := cfg.newHash, expires_at := cfg.newExpiresAt,
                    is_revoked := false }],
       { att with succeeded := true })

/-- Shared state of the two-request race: the ledger and both requests'
progress. -/
structure RaceState where
  ledger : List RefreshTokenRecord
  attA : RefreshAttempt
  attB : RefreshAttempt
deriving Repr, DecidableEq

/-- Run one scheduled step: `false` advances request A, `true` advances
request B. -/
def raceRunStep (cfgA cfgB : AttemptConfig) (now : Nat) (st : RaceState)
    (who : Bool) : RaceState :=
  if who then
    let next := raceStep cfgB now st.ledger st.attB
    { st with ledger := next.1, attB := next.2 }
  else
    let next := raceStep cfgA now st.ledger st.attA
    { st with ledger := next.1, attA := next.2 }

/-- Run a whole schedule (a list of which request moves at each step) from
an initial ledger. -/
def raceRun (cfgA cfgB : AttemptConfig) (now : Nat)
    (ledger : List RefreshTokenRecord) (schedule : List Bool) : RaceState :=
  schedule.foldl (raceRunStep cfgA cfgB now)
    { ledger := ledger, attA := {}, attB := {} }

/-! ### Helper lemmas -/

/-- Searching an appended ledger when the front part has no live record. -/
theorem findLiveRecord_append (l1 l2 : List RefreshTokenRecord) (h : String)
    (now : Nat) (h1 : findLiveRecord l1 h now = none) :
    findLiveRecord (l1 ++ l2) h now = findLiveRecord l2 h now := by
  unfold findLiveRecord at *
  rw [List.find?_append, h1]
  rfl

/-- After revoking the row `rid`, no live record with hash `h` remains,
provided `rid` was the only row carrying hash `h`. -/
theorem findLiveRecord_revokeById (ledger : List RefreshTokenRecord)
    (rid : Nat) (h : String) (now : Nat)
    (huniq : ∀ r ∈ ledger, r.token_hash = h → r.id = rid) :
    findLiveRecord (revokeById ledger rid) h now = none := by
  unfold findLiveRecord revokeById
  rw [List.find?_eq_none]
  intro x hx
  rw [List.mem_map] at hx
  obtain ⟨r, hr, hfx⟩ := hx
  by_cases hid : r.id = rid
  · subst hfx
    simp [hid]
  · have hneq : r.token_hash ≠ h := fun hh => hid (huniq r hr hh)
    subst hfx
    simp [hid, hneq]

/-- A single fresh row with a different hash holds no live record for `h`. -/
theorem findLiveRecord_singleton_ne (rec : RefreshTokenRecord) (h : String)
    (now : Nat) (hne : rec.token_hash ≠ h) :
    findLiveRecord [rec] h now = none := by
  unfold findLiveRecord
  have h0 : (rec.token_hash == h) = false := by
    simp [hne]
  simp [List.find?, h0]

/-- Reading back a key just written. -/
theorem redisGet_set_self (st : RedisStore) (k v : String) (ex t : Nat) :
    redisGet (redisSet st k v ex) k t = if t < ex then some v else none := by
  unfold redisGet redisSet
  simp [List.find?]

/-- A deleted key is gone. -/
theorem redisGet_delete_self (st : RedisStore) (k : String) (t : Nat) :
    redisGet (redisDelete st k) k t = none := by
  unfold redisGet redisDelete
  have hnone : (st.filter (fun e => !(e.1 == k))).find? (fun e => e.1 == k) = none := by
    rw [List.find?_eq_none]
    intro x hx
    rw [List.mem_filter] at hx
    simpa using hx.2
  rw [hnone]

/-- Overwriting a key twice is the same as writing it once. -/
theorem redisSet_twice (st : RedisStore) (k v v' : String) (ex ex' : Nat) :
    redisSet (redisSet st k v ex) k v' ex' = redisSet st k v' ex' := by
  unfold redisSet
  simp [List.filter_filter]

/-! ### Claims -/

/-- The two racing refresh requests of the C2 scenario redeem the same
token (ledger hash `"h0"`); each would insert its own fresh row. -/
def raceCfgA : AttemptConfig :=
  { tokenHash := "h0", userId := 1, newId := 10, newHash := "hA",
    newExpiresAt := 2000 }

/-- Second racing request of the C2 scenario. -/
def raceCfgB : AttemptConfig :=
  { tokenHash := "h0", userId := 1, newId := 11, newHash := "hB",
    newExpiresAt := 2000 }

/-- Initial ledger of the C2 scenario: one live (unrevoked, unexpired)
record for the shared token hash. -/
def raceLedger0 : List RefreshTokenRecord :=
  [{ id := 1, user_id := 1, token_hash := "h0", expires_at := 1000,
     is_revoked := false }]

/-- The racing schedule: A-select, B-select, A-revoke, A-insert, B-revoke,
B-insert — both `SELECT`s run before either revocation commits. -/
def raceBadSchedule : List Bool :=
  [false, true, false, false, true, true]

/-- C2. The spec requires that two concurrent refresh attempts on the same
still-valid refresh token yield at most one success, via a mark-revoked
step that is a single atomic conditional update. The code instead performs
an unconditional read-then-write (`SELECT` at line 312, then
`refresh_token_record.is_revoked = True; commit()` at lines 336–337 with no
revocation re-check), so the schedule in which both requests run their
`SELECT` before either commits the revocation makes both requests succeed:
from a ledger with one live record for the shared hash `"h0"`, the
interleaving A-select, B-select, A-revoke, A-insert, B-revoke, B-insert
ends with both attempts marked succeeded. -/
theorem refresh_race_two_successes :
    (raceRun raceCfgA raceCfgB 100 raceLedger0 raceBadSchedule).attA.succeeded = true
    ∧ (raceRun raceCfgA raceCfgB 100 raceLedger0 raceBadSchedule).attB.succeeded = true := by
  constructor <;> rfl

/-- C3. The refresh sequence is not one transaction: the revocation is
committed on its own (auth_service.py line 337) before `create_tokens`
runs its separate insert-and-commit (lines 270–271). When `create_tokens`
raises after that first commit (modelled by `issueOk = false`; any
exception in it — its `commit()` failing, or the `settings` attribute
lookup it performs — lands in the blanket `except`), the caller gets
`Unauthorized` while the committed state has the old record revoked and no
new row: exactly the outcome the claim says cannot occur. Concrete run:
one live record, a valid token, an active user. -/
theorem refresh_revoked_without_issuance :
    refresh_access_token defaultSettings (fun t => t ++ "#")
      (fun t => if t == "rt1" then
          some { sub := some ("1"), email := none, exp := none, purpose := none }
        else none)
      [{ id := 1, email := "alice@example.com", hashed_password := "pw",
         is_active := true, is_superuser := false }]
      [{ id := 5, user_id := 1, token_hash := "rt1#", expires_at := 1000,
         is_revoked := false }]
      "rt1" "newAccess" "newRefresh" 100 6 false
    = (.error .unauthorized,
       [{ id := 5, user_id := 1, token_hash := "rt1#", expires_at := 1000,
          is_revoked := true }]) := by
  rfl

/-- C4. `get_current_user` checks the blacklist before decoding and before
the account lookup: whenever a live blacklist entry exists for the exact
token string, validation rejects with 401, for every codec outcome and
every account table — in particular even when the signature would verify
and the account exists. -/
theorem validation_rejects_blacklisted_first
    (redis : RedisStore) (decode : String → Option Payload)
    (users : List User) (token : String) (now : Nat)
    (hb : redisExists redis ("blacklist:" ++ token) now = true) :
    get_current_user redis decode users token now = .error 401 := by
  unfold get_current_user
  simp [hb]

/-- Witness for C4: a concretely blacklisted token is rejected although the
codec decodes it and the account exists and is active. -/
theorem validation_rejects_blacklisted_first_witness :
    get_current_user [("blacklist:tok1", "true", 100)]
      (fun t => if t == "tok1" then
          some { sub := some ("1"), email := none, exp := some 100, purpose := none }
        else none)
      [{ id := 1, email := "alice@example.com", hashed_password := "pw",
         is_active := true, is_superuser := false }]
      "tok1" 50 = .error 401 :=
  validation_rejects_blacklisted_first _ _ _ _ _ (by decide)

/-- C5. Token issuance as written returns token type `"bearer"`, reports
the access TTL in whole seconds (30 minutes → 1800 by the `Settings`
defaults), and its only ledger effect is appending one fresh unrevoked
row — but the attribute names the service reads
(`ACCESS_TOKEN_EXPIRE_MINUTES`, `REFRESH_TOKEN_EXPIRE_DAYS`) are not
declared on the `Settings` class, which declares them with a `JWT_` name
part, so the live attribute lookup fails. -/
theorem create_tokens_bearer_ttl_fresh_row :
    settingsHasAttr ("ACCESS_TOKEN_EXPIRE_MINUTES") = false
    ∧ settingsHasAttr ("REFRESH_TOKEN_EXPIRE_DAYS") = false
    ∧ settingsHasAttr ("JWT_ACCESS_TOKEN_EXPIRE_MINUTES") = true
    ∧ settingsHasAttr ("JWT_REFRESH_TOKEN_EXPIRE_DAYS") = true
    ∧ defaultSettings.ACCESS_TOKEN_EXPIRE_MINUTES * 60 = 1800
    ∧ ∀ (hash : String → String) (user : User) (ledger : List RefreshTokenRecord)
        (a r : String) (now fid : Nat),
        (create_tokens defaultSettings hash user ledger a r now fid).1.token_type
            = "bearer"
        ∧ (create_tokens defaultSettings hash user ledger a r now fid).1.expires_in
            = 1800
        ∧ (create_tokens defaultSettings hash user ledger a r now fid).2
            = ledger ++ [{ id := fid, user_id := user.id, token_hash := hash r,
                           expires_at := now + 604800, is_revoked := false }] := by
  refine ⟨by decide, by decide, by decide, by decide, by decide, ?_⟩
  intro hash user ledger a r now fid
  exact ⟨rfl, rfl, rfl⟩

/-- C9 counterexample. The claim says an inactive account is rejected with
`Forbidden`; the code (`get_current_active_user`, dependencies.py lines
154–159) rejects it with HTTP 400 (`BAD_REQUEST`), not 403. -/
theorem inactive_rejected_400_not_403 :
    get_current_active_user
      { id := 1, email := "bob@example.com", hashed_password := "pw",
        is_active := false, is_superuser := false } = .error 400
    ∧ (400 : Nat) ≠ 403 := by
  constructor
  · rfl
  · decide

/-- C9 amended. An inactive account is rejected with HTTP 400 Bad Request
by `get_current_active_user`, and an active non-superuser account is
rejected with HTTP 403 Forbidden by `get_current_superuser`. -/
theorem authz_gate_statuses (u v : User)
    (hu : u.is_active = false)
    (hv : v.is_active = true) (hs : v.is_superuser = false) :
    get_current_active_user u = .error 400
    ∧ get_current_superuser v = .error 403 := by
  constructor
  · unfold get_current_active_user
    simp [hu]
  · unfold get_current_superuser get_current_active_user
    simp [hv, hs]

/-- Witness for the amended C9: a concrete inactive account and a concrete
active non-superuser account. -/
theorem authz_gate_statuses_witness :
    get_current_active_user
      { id := 2, email := "carol@example.com", hashed_password := "pw",
        is_active := false, is_superuser := false } = .error 400
    ∧ get_current_superuser
      { id := 3, email := "dan@example.com", hashed_password := "pw",
        is_active := true, is_superuser := false } = .error 403 :=
  authz_gate_statuses _ _ rfl rfl rfl

/-- Forward computation of a successful refresh: with a decodable token
whose `sub` parses, a live ledger record for the token's hash, an active
account, and an issuance transaction that goes through, the refresh
returns the new bearer pair and the committed ledger has the found row
revoked plus the one fresh row appended. -/
theorem refresh_success_eq
    (s : Settings) (hash : String → String) (decode : String → Option Payload)
    (users : List User) (ledger : List RefreshTokenRecord)
    (oldR a1 r1 : String) (now id1 : Nat)
    (p : Payload) (subStr : String) (uid : Nat) (rec : RefreshTokenRecord)
    (u : User)
    (hdec : decode oldR = some p) (hsub : p.sub = some subStr)
    (hnat : pyInt? subStr = some uid)
    (hrec : findLiveRecord ledger (hash oldR) now = some rec)
    (huser : users.find? (fun x => x.id == uid) = some u)
    (hact : u.is_active = true) :
    refresh_access_token s hash decode users ledger oldR a1 r1 now id1 true
      = (.ok { access_token := a1, refresh_token := r1, token_type := "bearer",
               expires_in := s.ACCESS_TOKEN_EXPIRE_MINUTES * 60 },
         revokeById ledger rec.id
           ++ [{ id := id1, user_id := u.id, token_hash := hash r1,
                 expires_at := now + s.REFRESH_TOKEN_EXPIRE_DAYS * 86400,
                 is_revoked := false }]) := by
  unfold refresh_access_token refresh_access_token_inner create_tokens
  simp only [hdec, hsub, hnat, hrec, huser, hact]
  simp

/-- C1. Rotation makes a refresh token single-use: once a token has been
redeemed in a successful refresh, its ledger record is revoked, and a
second refresh call with the same raw string — at any later time, with any
newly minted pair — fails with `Unauthorized` and changes nothing, even
though the codec still decodes the token (`hdec`) and its record's expiry
had not passed (it was found live at the first call, `hrec`). `huniq` is
the spec's ledger invariant that the hash is unique among the records;
`hcol` says the freshly minted refresh token does not hash-collide with
the old one. -/
theorem refresh_token_single_use
    (s : Settings) (hash : String → String) (decode : String → Option Payload)
    (users : List User) (ledger : List RefreshTokenRecord)
    (oldR a1 r1 : String) (now id1 : Nat)
    (p : Payload) (subStr : String) (uid : Nat) (rec : RefreshTokenRecord)
    (u : User)
    (hdec : decode oldR = some p) (hsub : p.sub = some subStr)
    (hnat : pyInt? subStr = some uid)
    (hrec : findLiveRecord ledger (hash oldR) now = some rec)
    (huser : users.find? (fun x => x.id == uid) = some u)
    (hact : u.is_active = true)
    (huniq : ∀ r ∈ ledger, r.token_hash = hash oldR → r.id = rec.id)
    (hcol : hash r1 ≠ hash oldR) :
    (refresh_access_token s hash decode users ledger oldR a1 r1 now id1 true).1
      = .ok { access_token := a1, refresh_token := r1, token_type := "bearer",
              expires_in := s.ACCESS_TOKEN_EXPIRE_MINUTES * 60 }
    ∧ (∀ r ∈ (refresh_access_token s hash decode users ledger oldR a1 r1 now
          id1 true).2, r.token_hash = hash oldR → r.is_revoked = true)
    ∧ (∀ a2 r2 now2 id2 issue2,
        refresh_access_token s hash decode users
          (refresh_access_token s hash decode users ledger oldR a1 r1 now id1 true).2
          oldR a2 r2 now2 id2 issue2
        = (.error .unauthorized,
           (refresh_access_token s hash decode users ledger oldR a1 r1 now id1 true).2)) := by
  rw [refresh_success_eq s hash decode users ledger oldR a1 r1 now id1 p subStr
      uid rec u hdec hsub hnat hrec huser hact]
  refine ⟨rfl, ?_, ?_⟩
  · intro r hr hhash
    rcases List.mem_append.mp hr with hmem | hmem
    · unfold revokeById at hmem
      rw [List.mem_map] at hmem
      obtain ⟨r0, hr0, hfr⟩ := hmem
      by_cases hid : r0.id = rec.id
      · subst hfr
        simp [hid]
      · have hbeq : (r0.id == rec.id) = false := by simp [hid]
        subst hfr
        rw [hbeq] at hhash
        simp only [Bool.false_eq_true, if_false] at hhash
        exact absurd (huniq r0 hr0 hhash) hid
    · rw [List.mem_singleton] at hmem
      subst hmem
      exact absurd hhash hcol
  · intro a2 r2 now2 id2 issue2
    have hnone : findLiveRecord
        (revokeById ledger rec.id
          ++ [{ id := id1, user_id := u.id, token_hash := hash r1,
                expires_at := now + s.REFRESH_TOKEN_EXPIRE_DAYS * 86400,
                is_revoked := false }]) (hash oldR) now2 = none := by
      rw [findLiveRecord_append _ _ _ _
          (findLiveRecord_revokeById ledger rec.id (hash oldR) now2 huniq)]
      exact findLiveRecord_singleton_ne _ _ _ hcol
    unfold refresh_access_token refresh_access_token_inner
    simp only [hdec, hsub, hnat, hnone]

/-- Concrete codec of the rotation witnesses: one decodable refresh token
`"rt1"` for subject 1. -/
def w1decode : String → Option Payload := fun t =>
  if t == "rt1" then
    some { sub := some ("1"), email := none, exp := none, purpose := none }
  else none

/-- Concrete hash of the rotation witnesses. -/
def w1hash : String → String := fun t => t ++ "#"

/-- Concrete account table of the rotation witnesses. -/
def w1users : List User :=
  [{ id := 1, email := "alice@example.com", hashed_password := "pw",
     is_active := true, is_superuser := false }]

/-- Concrete ledger of the rotation witnesses: one live record for the
hash of `"rt1"`. -/
def w1ledger : List RefreshTokenRecord :=
  [{ id := 5, user_id := 1, token_hash := "rt1#", expires_at := 1000,
     is_revoked := false }]

/-- Witness for C1 at a concrete state: the first refresh of `"rt1"`
succeeds, its record is revoked, and every replay fails without a state
change. -/
theorem refresh_token_single_use_witness :
    (refresh_access_token defaultSettings w1hash w1decode w1users w1ledger
        "rt1" "at2" "rt2" 100 6 true).1
      = .ok { access_token := "at2", refresh_token := "rt2",
              token_type := "bearer", expires_in := 1800 }
    ∧ (∀ r ∈ (refresh_access_token defaultSettings w1hash w1decode w1users
          w1ledger ("rt1") "at2" "rt2" 100 6 true).2,
        r.token_hash = w1hash ("rt1") → r.is_revoked = true)
    ∧ (∀ a2 r2 now2 id2 issue2,
        refresh_access_token defaultSettings w1hash w1decode w1users
          (refresh_access_token defaultSettings w1hash w1decode w1users
            w1ledger ("rt1") "at2" "rt2" 100 6 true).2
          "rt1" a2 r2 now2 id2 issue2
        = (.error .unauthorized,
           (refresh_access_token defaultSettings w1hash w1decode w1users
             w1ledger ("rt1") "at2" "rt2" 100 6 true).2)) :=
  refresh_token_single_use defaultSettings w1hash w1decode w1users w1ledger
    "rt1" "at2" "rt2" 100 6
    { sub := some ("1"), email := none, exp := none, purpose := none } "1" 1
    { id := 5, user_id := 1, token_hash := "rt1#", expires_at := 1000,
      is_revoked := false }
    { id := 1, email := "alice@example.com", hashed_password := "pw",
      is_active := true, is_superuser := false }
    rfl rfl rfl rfl rfl rfl (by decide) (by decide)

/-- C10. The refresh path never consults the blacklist store: it takes the
Redis state nowhere into account, so with a live ledger record and a
present, active account the refresh succeeds even when a live blacklist
entry exists for the exact raw refresh token value (`hbl`, as after
passing the token to logout). -/
theorem refresh_ignores_blacklist
    (s : Settings) (hash : String → String) (decode : String → Option Payload)
    (users : List User) (ledger : List RefreshTokenRecord) (redis : RedisStore)
    (oldR a1 r1 : String) (now id1 : Nat)
    (p : Payload) (subStr : String) (uid : Nat) (rec : RefreshTokenRecord)
    (u : User)
    (hdec : decode oldR = some p) (hsub : p.sub = some subStr)
    (hnat : pyInt? subStr = some uid)
    (hrec : findLiveRecord ledger (hash oldR) now = some rec)
    (huser : users.find? (fun x => x.id == uid) = some u)
    (hact : u.is_active = true)
    (hbl : is_token_blacklisted redis oldR now = true) :
    (refresh_access_token s hash decode users ledger oldR a1 r1 now id1 true).1
      = .ok { access_token := a1, refresh_token := r1, token_type := "bearer",
              expires_in := s.ACCESS_TOKEN_EXPIRE_MINUTES * 60 } := by
  rw [refresh_success_eq s hash decode users ledger oldR a1 r1 now id1 p subStr
      uid rec u hdec hsub hnat hrec huser hact]

/-- Witness for C10: the refresh of `"rt1"` succeeds although
`blacklist:rt1` is live in Redis at the time of the call. -/
theorem refresh_ignores_blacklist_witness :
    (refresh_access_token defaultSettings w1hash w1decode w1users w1ledger
        "rt1" "at9" "rt9" 100 7 true).1
      = .ok { access_token := "at9", refresh_token := "rt9",
              token_type := "bearer", expires_in := 1800 } :=
  refresh_ignores_blacklist defaultSettings w1hash w1decode w1users w1ledger
    [("blacklist:rt1", "true", 500)] "rt1" "at9" "rt9" 100 7
    { sub := some ("1"), email := none, exp := none, purpose := none } "1" 1
    { id := 5, user_id := 1, token_hash := "rt1#", expires_at := 1000,
      is_revoked := false }
    { id := 1, email := "alice@example.com", hashed_password := "pw",
      is_active := true, is_superuser := false }
    rfl rfl rfl rfl rfl rfl (by decide)

/-- C6. Enumeration resistance of forgot-password: the endpoint's external
result is success for every email — whether or not an account with that
email exists — while a `PasswordResetTicket` (`password_reset:<id>` in
Redis, holding the raw token, 3600-second TTL) is created exactly when the
account exists: for an unknown email the store is untouched, for a known
one the stored ticket reads back as the minted token. -/
theorem forgot_password_enumeration_resistant
    (users : List User) (redis : RedisStore) (email resetTok : String)
    (now : Nat) :
    (forgot_password users redis email resetTok now).1.success = true
    ∧ (users.find? (fun x => x.email == email) = none →
        (forgot_password users redis email resetTok now).2 = redis)
    ∧ (∀ u, users.find? (fun x => x.email == email) = some u →
        redisGet (forgot_password users redis email resetTok now).2
          ("password_reset:" ++ toString u.id) now = some resetTok) := by
  unfold forgot_password request_password_reset
  cases hfind : users.find? (fun x => x.email == email) with
  | none => simp [hfind]
  | some u0 =>
    refine ⟨by simp [hfind], by simp [hfind], ?_⟩
    intro u hu
    cases hu
    simp [redisGet_set_self]

/-- Witness for C6: with one account `alice@example.com`, both the known
and the unknown email get `success`, only the known one creates a ticket. -/
theorem forgot_password_enumeration_resistant_witness :
    (forgot_password w1users [] "alice@example.com" "tokA" 10).1.success = true
    ∧ (forgot_password w1users [] "mallory@example.com" "tokB" 10).1.success = true
    ∧ (forgot_password w1users [] "mallory@example.com" "tokB" 10).2 = []
    ∧ redisGet (forgot_password w1users [] "alice@example.com" "tokA" 10).2
        "password_reset:1" 10 = some ("tokA") := by
  have hknown := forgot_password_enumeration_resistant w1users [] "alice@example.com" "tokA" 10
  have hunknown := forgot_password_enumeration_resistant w1users [] "mallory@example.com" "tokB" 10
  refine ⟨hknown.1, hunknown.1, hunknown.2.1 (by decide), ?_⟩
  have h3 := hknown.2.2
    { id := 1, email := "alice@example.com", hashed_password := "pw",
      is_active := true, is_superuser := false } (by decide)
  exact h3

/-- C7. A reset token works at most once: on the success path the account's
password hash is overwritten with the new hash and the
`PasswordResetTicket` is deleted, so replaying the same token — at any
time, with any new password — fails with `Unauthorized` and changes
nothing; and every failing run of `reset_password`, whatever the failing
step (decode, `sub` parse, purpose, ticket lookup or mismatch, missing
account), returns exactly `Unauthorized`. -/
theorem reset_token_single_use
    (decodeR : String → Option Payload) (users : List User)
    (redis : RedisStore) (token newHash : String) (now : Nat)
    (p : Payload) (subStr : String) (uid : Nat) (u : User)
    (hdec : decodeR token = some p) (hsub : p.sub = some subStr)
    (hnat : pyInt? subStr = some uid)
    (hpur : p.purpose = some ("password_reset"))
    (hstored : redisGet redis ("password_reset:" ++ toString uid) now
        = some token)
    (huser : users.find? (fun x => x.id == uid) = some u) :
    reset_password decodeR users redis token newHash now
      = (.ok (), setUserPassword users uid newHash,
         redisDelete redis ("password_reset:" ++ toString uid))
    ∧ (∀ v ∈ setUserPassword users uid newHash,
        v.id = uid → v.hashed_password = newHash)
    ∧ (∀ now2 newHash2,
        reset_password decodeR (setUserPassword users uid newHash)
          (redisDelete redis ("password_reset:" ++ toString uid))
          token newHash2 now2
        = (.error .unauthorized, setUserPassword users uid newHash,
           redisDelete redis ("password_reset:" ++ toString uid)))
    ∧ (∀ (d : String → Option Payload) us r t nh n,
        (reset_password d us r t nh n).1 = .ok ()
        ∨ (reset_password d us r t nh n).1 = .error .unauthorized) := by
  refine ⟨?_, ?_, ?_, ?_⟩
  · unfold reset_password reset_password_inner
    simp only [hdec, hsub, hnat, hpur, hstored, huser]
    simp
  · intro v hv hvid
    unfold setUserPassword at hv
    rw [List.mem_map] at hv
    obtain ⟨v0, hv0, hfv⟩ := hv
    by_cases hid : v0.id = uid
    · subst hfv
      simp [hid]
    · have hbeq : (v0.id == uid) = false := by simp [hid]
      subst hfv
      rw [hbeq] at hvid
      simp only [Bool.false_eq_true, if_false] at hvid
      exact absurd hvid hid
  · intro now2 newHash2
    have hgone : redisGet (redisDelete redis ("password_reset:" ++ toString uid))
        ("password_reset:" ++ toString uid) now2 = none :=
      redisGet_delete_self _ _ _
    unfold reset_password reset_password_inner
    simp only [hdec, hsub, hnat, hpur, hgone]
    simp
  · intro d us r t nh n
    unfold reset_password
    rcases hin : reset_password_inner d us r t nh n with ⟨res, us2, r2⟩
    cases res with
    | error e => simp
    | ok v => cases v; simp

/-- Concrete codec of the reset witness: one decodable reset token for
subject 1 carrying the `password_reset` purpose. -/
def w7decode : String → Option Payload := fun t =>
  if t == "reset1" then
    some { sub := some ("1"), email := none, exp := none,
           purpose := some ("password_reset") }
  else none

/-- Concrete Redis state of the reset witness: the ticket for account 1
stores the raw reset token. -/
def w7redis : RedisStore := [("password_reset:1", "reset1", 4000)]

/-- Witness for C7 at a concrete state: the first reset succeeds and
rewrites the stored hash, the replay fails with `Unauthorized`, and every
result of `reset_password` is success or `Unauthorized`. -/
theorem reset_token_single_use_witness :
    reset_password w7decode w1users w7redis ("reset1") "newHash9" 100
      = (.ok (), setUserPassword w1users 1 ("newHash9"),
         redisDelete w7redis ("password_reset:1"))
    ∧ (∀ v ∈ setUserPassword w1users 1 ("newHash9"),
        v.id = 1 → v.hashed_password = "newHash9")
    ∧ (∀ now2 newHash2,
        reset_password w7decode (setUserPassword w1users 1 ("newHash9"))
          (redisDelete w7redis ("password_reset:1")) "reset1" newHash2 now2
        = (.error .unauthorized, setUserPassword w1users 1 ("newHash9"),
           redisDelete w7redis ("password_reset:1")))
    ∧ (∀ (d : String → Option Payload) us r t nh n,
        (reset_password d us r t nh n).1 = .ok ()
        ∨ (reset_password d us r t nh n).1 = .error .unauthorized) :=
  reset_token_single_use w7decode w1users w7redis ("reset1") "newHash9" 100
    { sub := some ("1"), email := none, exp := none,
      purpose := some ("password_reset") } "1" 1
    { id := 1, email := "alice@example.com", hashed_password := "pw",
      is_active := true, is_superuser := false }
    rfl rfl rfl rfl rfl rfl

/-- C8. Logout never raises (it is a total function on the store) and: if
decoding fails it is a no-op; if the token's remaining lifetime at call
time is ≤ 0 seconds nothing is written; otherwise exactly one blacklist
entry keyed by the token value is written whose expiry is the token's own
`exp` — i.e. its TTL is the remaining seconds until expiry; and repeating
logout with the same token later (with the codec either returning the same
claims or failing because the token has meanwhile expired) leaves the
store exactly as after the first call. -/
theorem logout_idempotent_no_op_on_failure
    (d1 d2 : String → Option Payload) (redis : RedisStore) (tok : String)
    (t1 t2 : Nat) (hord : t1 ≤ t2)
    (hdet : d2 tok = d1 tok ∨ d2 tok = none) :
    (d1 tok = none → logout d1 redis tok t1 = redis)
    ∧ (∀ p e, d1 tok = some p → p.exp = some e → e ≤ (t1 : Int) →
        logout d1 redis tok t1 = redis)
    ∧ (∀ p e, d1 tok = some p → p.exp = some e → (t1 : Int) < e →
        logout d1 redis tok t1
          = redisSet redis ("blacklist:" ++ tok) "true" e.toNat)
    ∧ logout d2 (logout d1 redis tok t1) tok t2 = logout d1 redis tok t1 := by
  have hwrite : ∀ e : Int, (t1 : Int) < e →
      t1 + (e - (t1 : Int)).toNat = e.toNat := by
    intro e he
    omega
  refine ⟨?_, ?_, ?_, ?_⟩
  · intro h
    unfold logout
    simp [h]
  · intro p e hp he hle
    unfold logout
    simp only [hp, he]
    have h0 : ¬ (0 < e - (t1 : Int)) := by omega
    by_cases hz : e = 0
    · simp [hz]
    · have hzb : (e == 0) = false := by simp [hz]
      simp [hzb, h0]
  · intro p e hp he hlt
    unfold logout
    simp only [hp, he]
    have hz : (e == 0) = false := by
      have : e ≠ 0 := by omega
      simp [this]
    have h0 : 0 < e - (t1 : Int) := by omega
    simp [hz, h0]
    congr 1
    omega
  · cases hd1 : d1 tok with
    | none =>
      have hfst : logout d1 redis tok t1 = redis := by
        unfold logout; simp [hd1]
      rcases hdet with hsame | hnone
      · rw [hfst]
        unfold logout
        rw [hsame, hd1]
      · rw [hfst]
        unfold logout
        simp [hnone]
    | some p =>
      cases hexp : p.exp with
      | none =>
        have hfst : logout d1 redis tok t1 = redis := by
          unfold logout; simp [hd1, hexp]
        rcases hdet with hsame | hnone
        · rw [hfst]
          unfold logout
          rw [hsame, hd1]
          simp [hexp]
        · rw [hfst]
          unfold logout
          simp [hnone]
      | some e =>
        by_cases hz : e = 0
        · have hfst : logout d1 redis tok t1 = redis := by
            unfold logout; simp [hd1, hexp, hz]
          rcases hdet with hsame | hnone
          · rw [hfst]
            unfold logout
            rw [hsame, hd1]
            simp [hexp, hz]
          · rw [hfst]
            unfold logout
            simp [hnone]
        · have hzb : (e == 0) = false := by simp [hz]
          by_cases hlt : (t1 : Int) < e
          · have hfst : logout d1 redis tok t1
                = redisSet redis ("blacklist:" ++ tok) "true" e.toNat := by
              unfold logout
              simp only [hd1, hexp, hzb]
              have h0 : 0 < e - (t1 : Int) := by omega
              simp [h0]
              congr 1
              omega
            rcases hdet with hsame | hnone
            · rw [hfst]
              unfold logout
              rw [hsame, hd1]
              simp only [hexp, hzb]
              by_cases hlt2 : (t2 : Int) < e
              · have h02 : 0 < e - (t2 : Int) := by omega
                simp [h02, redisSet_twice]
                congr 1
                omega
              · have h02 : ¬ (0 < e - (t2 : Int)) := by omega
                simp [h02]
            · rw [hfst]
              unfold logout
              simp [hnone]
          · have hfst : logout d1 redis tok t1 = redis := by
              unfold logout
              simp only [hd1, hexp, hzb]
              have h0 : ¬ (0 < e - (t1 : Int)) := by omega
              simp [h0]
            rcases hdet with hsame | hnone
            · rw [hfst]
              unfold logout
              rw [hsame, hd1]
              simp only [hexp, hzb]
              have h02 : ¬ (0 < e - (t2 : Int)) := by omega
              simp [h02]
            · rw [hfst]
              unfold logout
              simp [hnone]

/-- Concrete codec of the logout witness: one decodable access token
`"at1"` expiring at second 800. -/
def w8decode : String → Option Payload := fun t =>
  if t == "at1" then
    some { sub := some ("1"), email := none, exp := some 800, purpose := none }
  else none

/-- The claims the logout-witness token decodes to. -/
def w8payload : Payload :=
  { sub := some ("1"), email := none, exp := some 800, purpose := none }

/-- Witness for C8 at concrete calls: a failing decode is a no-op, an
expired token writes nothing, a live token writes the blacklist entry
expiring at the token's `exp`, and the repeated logout changes nothing. -/
theorem logout_idempotent_no_op_on_failure_witness :
    (logout w7decode [] "garbage" 100 = [])
    ∧ logout w8decode [] "at1" 900 = []
    ∧ logout w8decode [] "at1" 100
        = redisSet [] "blacklist:at1" "true" 800
    ∧ logout w8decode (logout w8decode [] "at1" 100) "at1" 150
        = logout w8decode [] "at1" 100 := by
  have h1 := logout_idempotent_no_op_on_failure w7decode w7decode []
    "garbage" 100 100 (le_refl _) (Or.inl rfl)
  have h2 := logout_idempotent_no_op_on_failure w8decode w8decode []
    "at1" 900 900 (le_refl _) (Or.inl rfl)
  have h3 := logout_idempotent_no_op_on_failure w8decode w8decode []
    "at1" 100 150 (by omega) (Or.inl rfl)
  refine ⟨h1.1 (by decide), ?_, ?_, h3.2.2.2⟩
  · exact h2.2.1 w8payload 800 (by decide) rfl (by omega)
  · exact h3.2.2.1 w8payload 800 (by decide) rfl (by omega)

end AuthVerif
